import Mathlib

/-!
Shallow embedding of `src/github_stock_updater.py` (class `NotionStockUpdater`),
a sequential orchestration script that fetches equity quotes from the
Alpha Vantage "Global Quote" endpoint and upserts them into a Notion database.

Modelling conventions:
* Python `float` values are modelled as exact rationals (`ℚ`); Python's
  binary-float rounding artifacts are abstracted away (no claim here depends
  on them).
* A provider HTTP interaction is modelled by `FetchInput`: either a transport
  failure, a malformed JSON body, an unexpected exception from the HTTP/JSON
  layer, or a parsed top-level JSON object (`ApiData`).
* Python exceptions are modelled with `Except PyErr`; the `try/except`
  ladder of `get_stock_data` is modelled explicitly so that the totality of
  the public interface is a theorem rather than a typing accident.
* `datetime.now(...)` is nondeterministic, so the generated timestamp is
  passed in as an explicit `now : String` parameter.
-/

namespace StockUpdater

/-- Digits-only string fragment to a natural number (`none` if empty or a
non-digit occurs). Helper for the model of Python `float(...)`. -/
def natOfDigits (cs : List Char) : Option Nat :=
  if cs.isEmpty then none
  else if cs.all Char.isDigit then
    some (cs.foldl (fun a c => 10 * a + (c.toNat - 48)) 0)
  else none

/-- Split a character list at every dot, keeping empty segments
(`"1."` gives `["1", ""]`). -/
def splitDot (acc : List Char) : List Char → List (List Char)
  | [] => [acc.reverse]
  | '.' :: rest => acc.reverse :: splitDot [] rest
  | c :: rest => splitDot (c :: acc) rest

/-- Magnitude part of Python `float(...)` on the decimal fragment it accepts:
digits with at most one dot, where `"1."` and `".5"` are legal but `"."` is
not. Exponents and the words `inf`/`nan` are outside the fragment the quote
fields use and are not modelled. -/
def pyFloatMag (cs : List Char) : Option ℚ :=
  match splitDot [] cs with
  | [a] => (natOfDigits a).map (fun n => (n : ℚ))
  | [a, b] =>
    if a.isEmpty && b.isEmpty then none
    else
      match (if a.isEmpty then some 0 else natOfDigits a) with
      | none => none
      | some i =>
        if b.isEmpty then some (i : ℚ)
        else
          match natOfDigits b with
          | none => none
          | some f => some ((i : ℚ) + (f : ℚ) / ((10 : ℚ) ^ b.length))
  | _ => none

/-- Model of Python `float(s)` on strings: optional surrounding whitespace,
optional sign, then a plain decimal literal. `none` models `ValueError`. -/
def pyFloat (s : String) : Option ℚ :=
  match (s.toList.dropWhile Char.isWhitespace).reverse.dropWhile Char.isWhitespace |>.reverse with
  | '+' :: rest => pyFloatMag rest
  | '-' :: rest => (pyFloatMag rest).map Neg.neg
  | cs => pyFloatMag cs

/-- Model of Python `int(float(...))`: truncation toward zero. -/
def pyTrunc (q : ℚ) : ℤ :=
  if 0 ≤ q then ⌊q⌋ else ⌈q⌉

/-- Model of Python `round(x, 2)`: round to 2 decimal places, ties to even. -/
def pyRound2 (q : ℚ) : ℚ :=
  let x : ℚ := 100 * q
  let f : ℤ := ⌊x⌋
  let r : ℚ := x - (f : ℚ)
  let n : ℤ :=
    if r < 1 / 2 then f
    else if 1 / 2 < r then f + 1
    else if f % 2 = 0 then f else f + 1
  (n : ℚ) / 100

/-- Model of Python `s.replace("%", "")`: removes every `%` character. -/
def removePercent (s : String) : String :=
  String.mk (s.toList.filter (fun c => c ≠ '%'))

/-- Model of Python `s.upper()` on ASCII ticker strings. -/
def upperStr (s : String) : String :=
  String.mk (s.toList.map Char.toUpper)

/-- The `"Global Quote"` JSON object: each numbered field is present or
absent (`quote.get` with a default covers absence). -/
structure Quote where
  symbolF : Option String
  openF : Option String
  highF : Option String
  lowF : Option String
  priceF : Option String
  volumeF : Option String
  tradingDayF : Option String
  prevCloseF : Option String
  changeF : Option String
  changePercentF : Option String
  deriving DecidableEq, Repr

/-- Top-level JSON object of a quote-API response. `globalQuote = none`
models both an absent `"Global Quote"` key and a present-but-empty (falsy)
one: the two are indistinguishable after `data.get("Global Quote", {})`
followed by `if not quote`. -/
structure ApiData where
  errorMessage : Option String
  note : Option String
  globalQuote : Option Quote
  deriving DecidableEq, Repr

/-- One provider HTTP interaction, as seen by `get_stock_data`. -/
inductive FetchInput where
  /-- `requests.get` or `raise_for_status()` raises `RequestException`. -/
  | networkError : FetchInput
  /-- `response.json()` raises (`JSONDecodeError`, a `ValueError`). -/
  | malformedJson : FetchInput
  /-- any other exception escaping the HTTP/JSON layer. -/
  | unexpected : FetchInput
  /-- a parsed JSON body. -/
  | payload (data : ApiData) : FetchInput
  deriving DecidableEq, Repr

/-- Python exception classes relevant to `get_stock_data`'s handlers. -/
inductive PyErr where
  | requestException : PyErr
  | valueError : PyErr
  | keyError : PyErr
  | otherException : PyErr
  deriving DecidableEq, Repr

/-- The quote record dictionary returned by `get_stock_data`. -/
structure StockData where
  symbol : String
  current_price : ℚ
  previous_close : ℚ
  price_change : ℚ
  percent_change : ℚ
  volume : ℤ
  open_price : ℚ
  high_price : ℚ
  low_price : ℚ
  latest_trading_day : String
  last_updated : String
  deriving DecidableEq, Repr

/-- `float(s)` as a raising computation: `ValueError` on parse failure. -/
def pyFloatExc (s : String) : Except PyErr ℚ :=
  match pyFloat s with
  | some q => Except.ok q
  | none => Except.error PyErr.valueError

/-- Body of the `try:` block of `get_stock_data` (lines 24-73): returns
`ok none` on the explicitly handled API-level conditions, `ok (some record)`
on success, and raises on transport, JSON and numeric-parse failures. -/
def getStockDataBody (symbol : String) (inp : FetchInput) (now : String) :
    Except PyErr (Option StockData) :=
  match inp with
  | FetchInput.networkError => Except.error PyErr.requestException
  | FetchInput.malformedJson => Except.error PyErr.valueError
  | FetchInput.unexpected => Except.error PyErr.otherException
  | FetchInput.payload data =>
    if (data.errorMessage).isSome then Except.ok none
    else if (data.note).isSome then Except.ok none
    else
      match data.globalQuote with
      | none => Except.ok none
      | some quote => do
        let current_price ← pyFloatExc ((quote.priceF).getD "0")
        let previous_close ← pyFloatExc ((quote.prevCloseF).getD "0")
        let change ← pyFloatExc ((quote.changeF).getD "0")
        let change_percent := removePercent ((quote.changePercentF).getD "0%")
        let volumeQ ← pyFloatExc ((quote.volumeF).getD "0")
        let percent_change := (pyFloat change_percent).getD 0
        let open_price ← pyFloatExc ((quote.openF).getD "0")
        let high_price ← pyFloatExc ((quote.highF).getD "0")
        let low_price ← pyFloatExc ((quote.lowF).getD "0")
        Except.ok (some {
          symbol := (quote.symbolF).getD (upperStr symbol)
          current_price := pyRound2 current_price
          previous_close := pyRound2 previous_close
          price_change := pyRound2 change
          percent_change := pyRound2 percent_change
          volume := pyTrunc volumeQ
          open_price := open_price
          high_price := high_price
          low_price := low_price
          latest_trading_day := (quote.tradingDayF).getD ""
          last_updated := now })

/-- The exception classes caught by the three `except` clauses of
`get_stock_data` (lines 75-83): `RequestException`, `(ValueError, KeyError)`,
and the catch-all `Exception`. -/
def handledByExceptClauses (e : PyErr) : Bool :=
  match e with
  | PyErr.requestException => true
  | PyErr.valueError => true
  | PyErr.keyError => true
  | PyErr.otherException => true

/-- `get_stock_data` with its handler ladder made explicit: a raised
exception is converted to `ok none` exactly when one of the `except`
clauses matches; an unhandled exception would propagate as `error`. -/
def get_stock_data_exc (symbol : String) (inp : FetchInput) (now : String) :
    Except PyErr (Option StockData) :=
  match getStockDataBody symbol inp now with
  | Except.ok v => Except.ok v
  | Except.error e =>
    if handledByExceptClauses e then Except.ok none else Except.error e

/-- `NotionStockUpdater.get_stock_data` as seen by its callers. -/
def get_stock_data (symbol : String) (inp : FetchInput) (now : String) :
    Option StockData :=
  match get_stock_data_exc symbol inp now with
  | Except.ok v => v
  | Except.error _ => none

/-- One row of the Notion database, as consumed by `find_existing_entry`.
`symbolText` is the first rich-text element's content of the `"Symbol"`
property; `none` covers every malformed shape that the code skips over
(missing/empty `rich_text`, and the `KeyError`/`IndexError` paths of the
`try` inside the loop). -/
structure Entry where
  id : String
  symbolText : Option String
  deriving DecidableEq, Repr

/-- `NotionStockUpdater.find_existing_entry` (lines 233-245): scan the
existing rows in order, return the identifier of the first row whose symbol
text equals the requested symbol after upper-casing both. -/
def find_existing_entry (symbol : String) : List Entry → Option String
  | [] => none
  | e :: rest =>
    match e.symbolText with
    | some t =>
      if upperStr t = upperStr symbol then some e.id
      else find_existing_entry symbol rest
    | none => find_existing_entry symbol rest

/-- `NotionStockUpdater.query_database` (lines 85-95): the raw HTTP outcome
is either a row list or a `RequestException`; the handler converts the
latter to the empty list. -/
def query_database (outcome : Except Unit (List Entry)) : List Entry :=
  match outcome with
  | Except.ok rows => rows
  | Except.error _ => []

/-- Typed Notion property payload values (title, rich-text, number, date). -/
inductive PropValue where
  | title (s : String) : PropValue
  | richText (s : String) : PropValue
  | number (q : ℚ) : PropValue
  | date (s : String) : PropValue
  deriving DecidableEq, Repr

/-- The `properties` payload of `create_database_entry` (lines 102-159),
keys in source order. -/
def create_properties (d : StockData) : List (String × PropValue) :=
  [("Name", PropValue.title (d.symbol ++ " Stock Quote")),
   ("Symbol", PropValue.richText d.symbol),
   ("Current Price", PropValue.number d.current_price),
   ("Previous Close", PropValue.number d.previous_close),
   ("Price Change", PropValue.number d.price_change),
   ("Percent Change", PropValue.number d.percent_change),
   ("Volume", PropValue.number (d.volume : ℚ)),
   ("Open Price", PropValue.number d.open_price),
   ("High Price", PropValue.number d.high_price),
   ("Low Price", PropValue.number d.low_price),
   ("Trading Day", PropValue.richText d.latest_trading_day),
   ("Last Updated", PropValue.date d.last_updated)]

/-- The `properties` payload of `update_database_entry` (lines 181-220),
keys in source order. -/
def update_properties (d : StockData) : List (String × PropValue) :=
  [("Current Price", PropValue.number d.current_price),
   ("Previous Close", PropValue.number d.previous_close),
   ("Price Change", PropValue.number d.price_change),
   ("Percent Change", PropValue.number d.percent_change),
   ("Volume", PropValue.number (d.volume : ℚ)),
   ("Open Price", PropValue.number d.open_price),
   ("High Price", PropValue.number d.high_price),
   ("Low Price", PropValue.number d.low_price),
   ("Trading Day", PropValue.richText d.latest_trading_day),
   ("Last Updated", PropValue.date d.last_updated)]

/-- Externally observable actions of one `update_stocks` run, in order. -/
inductive Event where
  /-- the Alpha Vantage HTTP request issued by `get_stock_data`. -/
  | fetch (symbol : String) : Event
  /-- `time.sleep(seconds)`. -/
  | sleep (seconds : Nat) : Event
  /-- `create_database_entry(stock_data)`: a `POST /pages` sink write. -/
  | sinkCreate (d : StockData) : Event
  /-- `update_database_entry(page_id, stock_data)`: a `PATCH` sink write. -/
  | sinkUpdate (pageId : String) (d : StockData) : Event
  deriving DecidableEq, Repr

/-- Final state of a run: the event trace plus the two counters printed in
the summary. -/
structure RunState where
  events : List Event
  succeeded : Nat
  failed : Nat
  deriving DecidableEq, Repr

/-- The sink call `update_stocks` issues for one successfully fetched
record (lines 276-289): update when `find_existing_entry` finds a row,
create otherwise. -/
def sinkEventFor (existing : List Entry) (symbol : String) (d : StockData) : Event :=
  match find_existing_entry symbol existing with
  | some pageId => Event.sinkUpdate pageId d
  | none => Event.sinkCreate d

/-- The loop body of `update_stocks` (lines 258-294), one recursion step per
symbol. `fetchEnv i` is the provider interaction of the `i`-th fetch of the
remaining list; `sinkOk i` the outcome of the `i`-th remaining iteration's
sink write (unconsumed when no sink call happens). A failed fetch does
`failed += 1; continue`, which skips the sink call AND the
`time.sleep(12)` at the bottom of the loop; the sleep is also skipped on the
last iteration (`i < len - 1`). -/
def update_stocks_go (existing : List Entry) (now : String) :
    (Nat → FetchInput) → (Nat → Bool) → List String → RunState
  | _, _, [] => { events := [], succeeded := 0, failed := 0 }
  | fetchEnv, sinkOk, s :: rest =>
    let tail := update_stocks_go existing now
      (fun j => fetchEnv (j + 1)) (fun j => sinkOk (j + 1)) rest
    match get_stock_data s (fetchEnv 0) now with
    | none =>
      { events := Event.fetch s :: tail.events
        succeeded := tail.succeeded
        failed := tail.failed + 1 }
    | some d =>
      let sleeps : List Event := if rest.isEmpty then [] else [Event.sleep 12]
      { events := Event.fetch s :: sinkEventFor existing s d :: (sleeps ++ tail.events)
        succeeded := tail.succeeded + (if sinkOk 0 then 1 else 0)
        failed := tail.failed + (if sinkOk 0 then 0 else 1) }

/-- `NotionStockUpdater.update_stocks` (lines 247-299): query the database
once (transport failure degrades to an empty row list), then process the
symbols in order. -/
def update_stocks (symbols : List String) (queryOutcome : Except Unit (List Entry))
    (fetchEnv : Nat → FetchInput) (sinkOk : Nat → Bool) (now : String) : RunState :=
  update_stocks_go (query_database queryOutcome) now fetchEnv sinkOk symbols

/-- Is the event a sink write (create or update)? -/
def isSinkEvent : Event → Bool
  | Event.sinkCreate _ => true
  | Event.sinkUpdate _ _ => true
  | _ => false

/-- Is the event a quote-API fetch call? -/
def isFetchEvent : Event → Bool
  | Event.fetch _ => true
  | _ => false

/-- Is the event a `time.sleep`? -/
def isSleepEvent : Event → Bool
  | Event.sleep _ => true
  | _ => false

/-- Is the event an update-row sink write? -/
def isUpdateEvent : Event → Bool
  | Event.sinkUpdate _ _ => true
  | _ => false

/-- Does the `i`-th fetch of a run over `symbols` yield a record? -/
def fetchSucceeds (now : String) (env : Nat → FetchInput) (symbols : List String)
    (i : Nat) : Bool :=
  (get_stock_data (symbols.getD i "") (env i) now).isSome

/-- Does the row's `"Symbol"` rich-text match the requested symbol up to
letter case? -/
def entryMatches (symbol : String) (e : Entry) : Bool :=
  match e.symbolText with
  | some t => upperStr t == upperStr symbol
  | none => false

/-- Shift an oracle by one position (the tail of a run consumes the oracle
from index 1 on). -/
def shiftEnv {α : Type} (env : Nat → α) : Nat → α := fun j => env (j + 1)

/-- All seven numeric fields other than percent-change (price, previous
close, change, volume, open, high, low) parse successfully. -/
def othersParse (q : Quote) : Bool :=
  (pyFloat ((q.priceF).getD "0")).isSome &&
  (pyFloat ((q.prevCloseF).getD "0")).isSome &&
  (pyFloat ((q.changeF).getD "0")).isSome &&
  (pyFloat ((q.volumeF).getD "0")).isSome &&
  (pyFloat ((q.openF).getD "0")).isSome &&
  (pyFloat ((q.highF).getD "0")).isSome &&
  (pyFloat ((q.lowF).getD "0")).isSome

/-- The record `get_stock_data` builds from a quote object whose seven
non-percent numeric fields all parse (values read back through `getD 0`,
which agrees with the parses on that branch). -/
def recordOf (s : String) (now : String) (q : Quote) : StockData :=
  { symbol := (q.symbolF).getD (upperStr s)
    current_price := pyRound2 ((pyFloat ((q.priceF).getD "0")).getD 0)
    previous_close := pyRound2 ((pyFloat ((q.prevCloseF).getD "0")).getD 0)
    price_change := pyRound2 ((pyFloat ((q.changeF).getD "0")).getD 0)
    percent_change := pyRound2 ((pyFloat (removePercent ((q.changePercentF).getD "0%"))).getD 0)
    volume := pyTrunc ((pyFloat ((q.volumeF).getD "0")).getD 0)
    open_price := (pyFloat ((q.openF).getD "0")).getD 0
    high_price := (pyFloat ((q.highF).getD "0")).getD 0
    low_price := (pyFloat ((q.lowF).getD "0")).getD 0
    latest_trading_day := (q.tradingDayF).getD ""
    last_updated := now }

/-- Stated from C4's words, for comparison with the code's `removePercent`:
strip a single trailing `%` character, nothing else. -/
def specStripTrailingPercent (s : String) : String :=
  match s.toList.reverse with
  | '%' :: rest => String.mk rest.reverse
  | _ => s

/-- Stated from the amended C1: the run's trace is a concatenation of
per-symbol blocks -- the fetch, then (when the fetch yields a record) the
single sink write for that record, then the pacing sleep when more symbols
follow -- independent of the sink-write outcomes. -/
def perSymbolEvents (existing : List Entry) (now : String) :
    (Nat → FetchInput) → List String → List Event
  | _, [] => []
  | env, s :: rest =>
    (match get_stock_data s (env 0) now with
     | none => [Event.fetch s]
     | some d => Event.fetch s :: sinkEventFor existing s d ::
         (if rest.isEmpty then [] else [Event.sleep 12]))
    ++ perSymbolEvents existing now (fun j => env (j + 1)) rest

/-- Concrete fixture: a fully parseable `"Global Quote"` object. -/
def cQuote : Quote :=
  { symbolF := some "AAPL", openF := some "1", highF := some "2",
    lowF := some "1", priceF := some "150", volumeF := some "100",
    tradingDayF := some "2025-01-02", prevCloseF := some "140",
    changeF := some "10", changePercentF := some "7%" }

/-- Concrete fixture: a successful provider response. -/
def cData : ApiData :=
  { errorMessage := none, note := none, globalQuote := some cQuote }

/-- Concrete fixture: the record `get_stock_data` produces from `cData`
at timestamp `"T"`. -/
def cRecord : StockData :=
  { symbol := "AAPL", current_price := 150, previous_close := 140,
    price_change := 10, percent_change := 7, volume := 100,
    open_price := 1, high_price := 2, low_price := 1,
    latest_trading_day := "2025-01-02", last_updated := "T" }

/-- Concrete fixture: a rate-limit `"Note"` response. -/
def noteData : ApiData :=
  { errorMessage := none, note := some "API call frequency", globalQuote := none }

/-- Concrete fixture: response whose quote reports a lowercase symbol. -/
def cDataLower : ApiData :=
  { errorMessage := none, note := none,
    globalQuote := some { cQuote with symbolF := some "aapl" } }

/-- Concrete fixture: response whose quote omits the `"01. symbol"` field. -/
def cDataNoSym : ApiData :=
  { errorMessage := none, note := none,
    globalQuote := some { cQuote with symbolF := none } }

/-- Concrete fixture: response whose percent-change field is `"5%5"`. -/
def cDataPct : ApiData :=
  { errorMessage := none, note := none,
    globalQuote := some { cQuote with changePercentF := some "5%5" } }

/-- Concrete fixture: response whose percent-change field parses to nothing
even after removing every `%`. -/
def cDataPctBad : ApiData :=
  { errorMessage := none, note := none,
    globalQuote := some { cQuote with changePercentF := some "x%" } }

/-- Concrete fixture: an existing database row with lowercase symbol text. -/
def cEntry : Entry := { id := "p1", symbolText := some "aapl" }

/-- Concrete fixture: response whose quote reports the symbol `"MSFT"`,
used with a request for a different ticker. -/
def cDataOtherSym : ApiData :=
  { errorMessage := none, note := none,
    globalQuote := some { cQuote with symbolF := some "MSFT" } }

/-- Concrete fixture: an existing database row whose symbol text matches
(up to case) the provider-reported symbol of `cDataOtherSym`, but not the
requested ticker `"AAA"`. -/
def cEntryMsft : Entry := { id := "p2", symbolText := some "msft" }

/-- Helper: `find_existing_entry` returns `none` exactly when no row
matches case-insensitively. -/
theorem find_existing_entry_eq_none (symbol : String) (entries : List Entry) :
    find_existing_entry symbol entries = none ↔
      ∀ e ∈ entries, entryMatches symbol e = false := by
  induction entries with
  | nil => simp [find_existing_entry]
  | cons e rest ih =>
    cases h : e.symbolText with
    | none =>
      simp only [find_existing_entry, h, List.mem_cons]
      constructor
      · intro hf x hx
        rcases hx with hx | hx
        · subst hx; simp [entryMatches, h]
        · exact (ih.mp hf) x hx
      · intro hall
        exact ih.mpr (fun x hx => hall x (Or.inr hx))
    | some t =>
      by_cases heq : upperStr t = upperStr symbol
      · simp only [find_existing_entry, h, heq, if_pos rfl]
        constructor
        · intro hf; cases hf
        · intro hall
          have := hall e (List.mem_cons_self e rest)
          simp [entryMatches, h, heq] at this
      · simp only [find_existing_entry, h, if_neg heq, List.mem_cons]
        constructor
        · intro hf x hx
          rcases hx with hx | hx
          · subst hx; simp [entryMatches, h, heq]
          · exact (ih.mp hf) x hx
        · intro hall
          exact ih.mpr (fun x hx => hall x (Or.inr hx))

/-- Helper: when `find_existing_entry` returns an identifier, it is the
identifier of a row whose symbol matches case-insensitively. -/
theorem find_existing_entry_eq_some (symbol : String) (entries : List Entry)
    (pid : String) (h : find_existing_entry symbol entries = some pid) :
    ∃ e ∈ entries, entryMatches symbol e = true ∧ e.id = pid := by
  induction entries with
  | nil => simp [find_existing_entry] at h
  | cons e rest ih =>
    cases he : e.symbolText with
    | none =>
      simp only [find_existing_entry, he] at h
      obtain ⟨x, hx, hm, hid⟩ := ih h
      exact ⟨x, List.mem_cons_of_mem e hx, hm, hid⟩
    | some t =>
      by_cases heq : upperStr t = upperStr symbol
      · simp only [find_existing_entry, he, if_pos heq, Option.some.injEq] at h
        exact ⟨e, List.mem_cons_self e rest, by simp [entryMatches, he, heq], h⟩
      · simp only [find_existing_entry, he, if_neg heq] at h
        obtain ⟨x, hx, hm, hid⟩ := ih h
        exact ⟨x, List.mem_cons_of_mem e hx, hm, hid⟩

/-- Helper: a matching row exists iff `find_existing_entry` finds one. -/
theorem find_existing_entry_isSome (symbol : String) (entries : List Entry) :
    (find_existing_entry symbol entries).isSome = true ↔
      ∃ e ∈ entries, entryMatches symbol e = true := by
  constructor
  · intro h
    obtain ⟨pid, hpid⟩ := Option.isSome_iff_exists.mp h
    obtain ⟨e, he, hm, _⟩ := find_existing_entry_eq_some symbol entries pid hpid
    exact ⟨e, he, hm⟩
  · intro ⟨e, he, hm⟩
    cases hf : find_existing_entry symbol entries with
    | some pid => rfl
    | none =>
      have := (find_existing_entry_eq_none symbol entries).mp hf e he
      rw [hm] at this
      cases this

/-- Helper: the sink call issued for a record is always a sink event. -/
theorem isSinkEvent_sinkEventFor (existing : List Entry) (s : String) (d : StockData) :
    isSinkEvent (sinkEventFor existing s d) = true := by
  unfold sinkEventFor
  cases find_existing_entry s existing <;> rfl

/-- Helper: sink-write count of a run equals the number of loop positions
whose fetch yields a record -- one per-record write, never a batch. -/
theorem update_stocks_go_sink_count (existing : List Entry) (now : String)
    (env : Nat → FetchInput) (sinkOk : Nat → Bool) (symbols : List String) :
    ((update_stocks_go existing now env sinkOk symbols).events.countP isSinkEvent)
      = (List.range symbols.length).countP (fetchSucceeds now env symbols) := by
  induction symbols generalizing env sinkOk with
  | nil => simp [update_stocks_go]
  | cons s rest ih =>
    have hshift : (List.range rest.length).countP
        (fetchSucceeds now env (s :: rest) ∘ Nat.succ)
        = (List.range rest.length).countP
            (fetchSucceeds now (fun j => env (j + 1)) rest) := rfl
    cases hf : get_stock_data s (env 0) now with
    | none =>
      have h0 : fetchSucceeds now env (s :: rest) 0 = false := by
        simp [fetchSucceeds, hf]
      simp only [update_stocks_go, hf, List.length_cons, List.range_succ_eq_map,
        List.countP_cons, List.countP_map, h0, hshift, ih]
      simp [isSinkEvent]
    | some d =>
      have h0 : fetchSucceeds now env (s :: rest) 0 = true := by
        simp [fetchSucceeds, hf]
      have hsleep : (if rest.isEmpty = true then ([] : List Event)
          else [Event.sleep 12]).countP isSinkEvent = 0 := by
        cases rest.isEmpty <;> simp [isSinkEvent]
      simp only [update_stocks_go, hf, List.length_cons, List.range_succ_eq_map,
        List.countP_cons, List.countP_append, List.countP_map, h0, hshift, ih,
        isSinkEvent_sinkEventFor, hsleep]
      simp [isSinkEvent]

/-- Helper: every symbol of the list is fetched, whatever the outcomes --
no failure aborts the loop. -/
theorem update_stocks_go_fetch_count (existing : List Entry) (now : String)
    (env : Nat → FetchInput) (sinkOk : Nat → Bool) (symbols : List String) :
    ((update_stocks_go existing now env sinkOk symbols).events.countP isFetchEvent)
      = symbols.length := by
  induction symbols generalizing env sinkOk with
  | nil => simp [update_stocks_go]
  | cons s rest ih =>
    cases hf : get_stock_data s (env 0) now with
    | none =>
      simp only [update_stocks_go, hf, List.countP_cons, List.length_cons, ih]
      simp [isFetchEvent]
    | some d =>
      have hsink : isFetchEvent (sinkEventFor existing s d) = false := by
        unfold sinkEventFor
        cases find_existing_entry s existing <;> rfl
      have hsleep : (if rest.isEmpty = true then ([] : List Event)
          else [Event.sleep 12]).countP isFetchEvent = 0 := by
        cases rest.isEmpty <;> simp [isFetchEvent]
      simp only [update_stocks_go, hf, List.countP_cons, List.countP_append,
        List.length_cons, ih, hsink, hsleep]
      simp [isFetchEvent]

/-- Helper: the succeeded counter counts positions whose fetch yields a
record AND whose sink write succeeds. -/
theorem update_stocks_go_succeeded (existing : List Entry) (now : String)
    (env : Nat → FetchInput) (sinkOk : Nat → Bool) (symbols : List String) :
    (update_stocks_go existing now env sinkOk symbols).succeeded
      = (List.range symbols.length).countP
          (fun i => fetchSucceeds now env symbols i && sinkOk i) := by
  induction symbols generalizing env sinkOk with
  | nil => simp [update_stocks_go]
  | cons s rest ih =>
    have hshift : (List.range rest.length).countP
        ((fun i => fetchSucceeds now env (s :: rest) i && sinkOk i) ∘ Nat.succ)
        = (List.range rest.length).countP
            (fun i => fetchSucceeds now (fun j => env (j + 1)) rest i && sinkOk (i + 1)) := rfl
    cases hf : get_stock_data s (env 0) now with
    | none =>
      have h0 : (fetchSucceeds now env (s :: rest) 0 && sinkOk 0) = false := by
        simp [fetchSucceeds, hf]
      simp only [update_stocks_go, hf, List.length_cons, List.range_succ_eq_map,
        List.countP_cons, List.countP_map, h0, hshift, ih]
      simp
    | some d =>
      have h0 : (fetchSucceeds now env (s :: rest) 0 && sinkOk 0) = sinkOk 0 := by
        simp [fetchSucceeds, hf]
      simp only [update_stocks_go, hf, List.length_cons, List.range_succ_eq_map,
        List.countP_cons, List.countP_map, h0, hshift, ih]

/-- Helper: the failed counter counts positions whose fetch fails or whose
sink write fails. -/
theorem update_stocks_go_failed (existing : List Entry) (now : String)
    (env : Nat → FetchInput) (sinkOk : Nat → Bool) (symbols : List String) :
    (update_stocks_go existing now env sinkOk symbols).failed
      = (List.range symbols.length).countP
          (fun i => !(fetchSucceeds now env symbols i && sinkOk i)) := by
  induction symbols generalizing env sinkOk with
  | nil => simp [update_stocks_go]
  | cons s rest ih =>
    have hshift : (List.range rest.length).countP
        ((fun i => !(fetchSucceeds now env (s :: rest) i && sinkOk i)) ∘ Nat.succ)
        = (List.range rest.length).countP
            (fun i => !(fetchSucceeds now (fun j => env (j + 1)) rest i && sinkOk (i + 1))) := rfl
    cases hf : get_stock_data s (env 0) now with
    | none =>
      have h0 : (!(fetchSucceeds now env (s :: rest) 0 && sinkOk 0)) = true := by
        simp [fetchSucceeds, hf]
      simp only [update_stocks_go, hf, List.length_cons, List.range_succ_eq_map,
        List.countP_cons, List.countP_map, h0, hshift, ih]
      simp
    | some d =>
      have h0 : (!(fetchSucceeds now env (s :: rest) 0 && sinkOk 0)) = !(sinkOk 0) := by
        simp [fetchSucceeds, hf]
      simp only [update_stocks_go, hf, List.length_cons, List.range_succ_eq_map,
        List.countP_cons, List.countP_map, h0, hshift, ih]
      cases sinkOk 0 <;> simp

/-- Helper: with an empty existing-row list every sink write is a create;
no update-row call can occur. -/
theorem update_stocks_go_no_update_of_nil (now : String)
    (env : Nat → FetchInput) (sinkOk : Nat → Bool) (symbols : List String) :
    ((update_stocks_go [] now env sinkOk symbols).events.countP isUpdateEvent) = 0 := by
  induction symbols generalizing env sinkOk with
  | nil => simp [update_stocks_go]
  | cons s rest ih =>
    cases hf : get_stock_data s (env 0) now with
    | none =>
      simp only [update_stocks_go, hf, List.countP_cons, ih]
      simp [isUpdateEvent]
    | some d =>
      have hsink : isUpdateEvent (sinkEventFor [] s d) = false := by rfl
      have hsleep : (if rest.isEmpty = true then ([] : List Event)
          else [Event.sleep 12]).countP isUpdateEvent = 0 := by
        cases rest.isEmpty <;> simp [isUpdateEvent]
      simp only [update_stocks_go, hf, List.countP_cons, List.countP_append,
        ih, hsink, hsleep]
      simp [isUpdateEvent]


/-- Helper: rounding zero gives zero. -/
theorem pyRound2_zero : pyRound2 0 = 0 := by
  norm_num [pyRound2]

/-- Helper: on a response that is a bare quote object, the `try` body
succeeds with the canonical record exactly when the seven non-percent
numeric fields parse, and raises `ValueError` otherwise. -/
theorem getStockDataBody_quote (s now : String) (q : Quote) :
    getStockDataBody s (FetchInput.payload ⟨none, none, some q⟩) now
      = if othersParse q = true then Except.ok (some (recordOf s now q))
        else Except.error PyErr.valueError := by
  simp only [getStockDataBody, Option.isSome_none, Bool.false_eq_true, if_false]
  cases hp1 : pyFloat ((q.priceF).getD "0") with
  | none =>
    have ho : othersParse q = false := by simp [othersParse, hp1]
    simp only [pyFloatExc, hp1, ho, Bool.false_eq_true, if_false]
    rfl
  | some v1 =>
  cases hp2 : pyFloat ((q.prevCloseF).getD "0") with
  | none =>
    have ho : othersParse q = false := by simp [othersParse, hp2]
    simp only [pyFloatExc, hp1, hp2, ho, Bool.false_eq_true, if_false]
    rfl
  | some v2 =>
  cases hp3 : pyFloat ((q.changeF).getD "0") with
  | none =>
    have ho : othersParse q = false := by simp [othersParse, hp3]
    simp only [pyFloatExc, hp1, hp2, hp3, ho, Bool.false_eq_true, if_false]
    rfl
  | some v3 =>
  cases hp4 : pyFloat ((q.volumeF).getD "0") with
  | none =>
    have ho : othersParse q = false := by simp [othersParse, hp4]
    simp only [pyFloatExc, hp1, hp2, hp3, hp4, ho, Bool.false_eq_true, if_false]
    rfl
  | some v4 =>
  cases hp5 : pyFloat ((q.openF).getD "0") with
  | none =>
    have ho : othersParse q = false := by simp [othersParse, hp5]
    simp only [pyFloatExc, hp1, hp2, hp3, hp4, hp5, ho, Bool.false_eq_true, if_false]
    rfl
  | some v5 =>
  cases hp6 : pyFloat ((q.highF).getD "0") with
  | none =>
    have ho : othersParse q = false := by simp [othersParse, hp6]
    simp only [pyFloatExc, hp1, hp2, hp3, hp4, hp5, hp6, ho, Bool.false_eq_true, if_false]
    rfl
  | some v6 =>
  cases hp7 : pyFloat ((q.lowF).getD "0") with
  | none =>
    have ho : othersParse q = false := by simp [othersParse, hp7]
    simp only [pyFloatExc, hp1, hp2, hp3, hp4, hp5, hp6, hp7, ho, Bool.false_eq_true, if_false]
    rfl
  | some v7 =>
    have ho : othersParse q = true := by
      simp [othersParse, hp1, hp2, hp3, hp4, hp5, hp6, hp7]
    simp only [pyFloatExc, hp1, hp2, hp3, hp4, hp5, hp6, hp7, ho, if_true,
      recordOf, Option.getD_some]
    rfl

/-- Helper: `get_stock_data` on a bare quote object returns the canonical
record exactly when the seven non-percent numeric fields parse. -/
theorem get_stock_data_quote (s now : String) (q : Quote) :
    get_stock_data s (FetchInput.payload ⟨none, none, some q⟩) now
      = if othersParse q = true then some (recordOf s now q) else none := by
  unfold get_stock_data get_stock_data_exc
  rw [getStockDataBody_quote]
  cases h : othersParse q with
  | true => simp [h]
  | false => simp [h, handledByExceptClauses]

/-- Helper: a response carrying an `"Error Message"` field, a `"Note"`
field, or no (or an empty) `"Global Quote"` object yields no record. -/
theorem get_stock_data_refused (s now : String) (d : ApiData)
    (hd : (d.errorMessage).isSome = true ∨ (d.note).isSome = true ∨
      d.globalQuote = none) :
    get_stock_data s (FetchInput.payload d) now = none := by
  unfold get_stock_data get_stock_data_exc getStockDataBody
  by_cases he : (d.errorMessage).isSome = true
  · simp [he]
  · by_cases hn : (d.note).isSome = true
    · simp [he, hn]
    · have hq : d.globalQuote = none := by
        rcases hd with h | h | h
        · exact absurd h he
        · exact absurd h hn
        · exact h
      simp [he, hn, hq]

/-- Helper: the event trace of a run equals the amended per-symbol block
shape, independently of the sink-write outcomes. -/
theorem update_stocks_go_events (existing : List Entry) (now : String)
    (env : Nat → FetchInput) (sinkOk : Nat → Bool) (symbols : List String) :
    (update_stocks_go existing now env sinkOk symbols).events
      = perSymbolEvents existing now env symbols := by
  induction symbols generalizing env sinkOk with
  | nil => rfl
  | cons s rest ih =>
    cases hf : get_stock_data s (env 0) now with
    | none =>
      simp only [update_stocks_go, perSymbolEvents, hf, ih]
      rfl
    | some d =>
      simp only [update_stocks_go, perSymbolEvents, hf, ih]
      rfl

/-- C1, counterexample: in a two-symbol run where both fetches yield
records, the sink is written twice -- once per record, interleaved with the
fetches (the first sink write precedes the second fetch) -- not "exactly
once with the full batch after all symbols are processed". -/
theorem C1_counterexample :
    ((update_stocks ["AAA", "BBB"] (Except.ok []) (fun _ => FetchInput.payload cData)
        (fun _ => true) "T").events
      = [Event.fetch "AAA", Event.sinkCreate (recordOf "AAA" "T" cQuote), Event.sleep 12,
         Event.fetch "BBB", Event.sinkCreate (recordOf "BBB" "T" cQuote)])
    ∧ ((update_stocks ["AAA", "BBB"] (Except.ok []) (fun _ => FetchInput.payload cData)
        (fun _ => true) "T").events.countP isSinkEvent ≠ 1) :=
  ⟨rfl, by decide⟩

/-- C1 (amended): the orchestrator invokes the sink adapter once per
successfully fetched record, immediately after that record's fetch and
before any later symbol's fetch (never once with a full batch); the number
of sink writes equals the number of fetches that yield a record, so in
particular a run in which no fetch succeeds performs no sink write. -/
theorem C1_per_record_sink (symbols : List String) (queryOutcome : Except Unit (List Entry))
    (env : Nat → FetchInput) (sinkOk : Nat → Bool) (now : String) :
    ((update_stocks symbols queryOutcome env sinkOk now).events
        = perSymbolEvents (query_database queryOutcome) now env symbols)
    ∧ ((update_stocks symbols queryOutcome env sinkOk now).events.countP isSinkEvent
        = (List.range symbols.length).countP (fetchSucceeds now env symbols)) :=
  ⟨update_stocks_go_events _ _ _ _ _, update_stocks_go_sink_count _ _ _ _ _⟩

/-- C2, counterexample: two runs with identical fetch outcomes (one symbol,
fetch yields a record) but different sink-write outcomes end with different
counters: a sink-write failure moves the symbol from succeeded to failed,
so the counters do not count fetch outcomes alone. -/
theorem C2_counterexample :
    (get_stock_data "AAA" (FetchInput.payload cData) "T"
        = some (recordOf "AAA" "T" cQuote))
    ∧ ((update_stocks ["AAA"] (Except.ok []) (fun _ => FetchInput.payload cData)
        (fun _ => true) "T").succeeded = 1)
    ∧ ((update_stocks ["AAA"] (Except.ok []) (fun _ => FetchInput.payload cData)
        (fun _ => false) "T").succeeded = 0)
    ∧ ((update_stocks ["AAA"] (Except.ok []) (fun _ => FetchInput.payload cData)
        (fun _ => false) "T").failed = 1) :=
  ⟨rfl, rfl, rfl, rfl⟩

/-- C2 (amended): the succeeded counter counts exactly the symbols whose
fetch returned a record AND whose subsequent sink write succeeded; the
failed counter counts exactly the symbols whose fetch failed or whose sink
write failed. -/
theorem C2_counters (symbols : List String) (queryOutcome : Except Unit (List Entry))
    (env : Nat → FetchInput) (sinkOk : Nat → Bool) (now : String) :
    ((update_stocks symbols queryOutcome env sinkOk now).succeeded
        = (List.range symbols.length).countP
            (fun i => fetchSucceeds now env symbols i && sinkOk i))
    ∧ ((update_stocks symbols queryOutcome env sinkOk now).failed
        = (List.range symbols.length).countP
            (fun i => !(fetchSucceeds now env symbols i && sinkOk i))) :=
  ⟨update_stocks_go_succeeded _ _ _ _ _, update_stocks_go_failed _ _ _ _ _⟩

/-- C3, evaluation at the failing input: in a two-symbol run whose first
fetch fails (rate-limit "Note" response) and whose second succeeds, the
`continue` skips `time.sleep(12)`, so the trace holds the two provider
calls back-to-back with no sleep anywhere -- the claimed fixed delay
between consecutive fetch calls is absent whenever the earlier fetch
failed. -/
theorem C3_failing_input_eval :
    ((update_stocks ["AAA", "BBB"] (Except.ok [])
        (fun i => if i = 0 then FetchInput.payload noteData else FetchInput.payload cData)
        (fun _ => true) "T").events
      = [Event.fetch "AAA", Event.fetch "BBB", Event.sinkCreate (recordOf "BBB" "T" cQuote)])
    ∧ ((update_stocks ["AAA", "BBB"] (Except.ok [])
        (fun i => if i = 0 then FetchInput.payload noteData else FetchInput.payload cData)
        (fun _ => true) "T").events.countP isSleepEvent = 0) :=
  ⟨rfl, by decide⟩

/-- C4, counterexample: for the percent-change field `"5%5"`, the value
fails to parse after stripping a (nonexistent) trailing `%`, so the claim
demands `percent_change = 0.0`; but the code removes every `%`, parses
`"55"`, and emits a record with `percent_change = 55`. -/
theorem C4_counterexample :
    (pyFloat (specStripTrailingPercent "5%5") = none)
    ∧ ((get_stock_data "AAA" (FetchInput.payload cDataPct) "T").map StockData.percent_change
        = some 55) := by
  refine ⟨rfl, ?_⟩
  have h : (get_stock_data "AAA" (FetchInput.payload cDataPct) "T").map StockData.percent_change
      = some (pyRound2 ((55 : ℕ) : ℚ)) := rfl
  rw [h]
  norm_num [pyRound2]

/-- C4 (amended): if the percent-change field fails to parse after removing
every `%` character (not only a trailing one), fetch still returns a full
record whose `percent_change` is `0.0` (provided the seven other numeric
fields parse); if any of those seven fields fails to parse, fetch returns
failure and no record is produced. -/
theorem C4_percent_default (q : Quote) (s now : String) :
    (othersParse q = true →
      pyFloat (removePercent ((q.changePercentF).getD "0%")) = none →
      ∃ d, get_stock_data s (FetchInput.payload ⟨none, none, some q⟩) now = some d
        ∧ d.percent_change = 0)
    ∧ (othersParse q = false →
      get_stock_data s (FetchInput.payload ⟨none, none, some q⟩) now = none) := by
  constructor
  · intro ho hp
    refine ⟨recordOf s now q, ?_, ?_⟩
    · rw [get_stock_data_quote, if_pos ho]
    · simp [recordOf, hp, pyRound2_zero]
  · intro ho
    rw [get_stock_data_quote]
    simp [ho]

/-- C4 witness: at the concrete percent field `"x%"` (unparseable even with
every `%` removed) and otherwise parseable fields, a full record with zero
percent-change is returned. -/
theorem C4_percent_default_witness :
    ∃ d, get_stock_data "AAA" (FetchInput.payload cDataPctBad) "T" = some d
      ∧ d.percent_change = 0 :=
  (C4_percent_default { cQuote with changePercentF := some "x%" } "AAA" "T").1 rfl rfl

/-- C5: a response with an `"Error Message"` field, a `"Note"` field, or no
`"Global Quote"` payload yields no record; in a run the failed counter for
that symbol rises by exactly 1, the succeeded counter is untouched, and the
trace continues with the remaining symbols' run. -/
theorem C5_refusal_counts (d : ApiData) (s now : String) (rest : List String)
    (queryOutcome : Except Unit (List Entry)) (env : Nat → FetchInput) (sinkOk : Nat → Bool)
    (henv : env 0 = FetchInput.payload d)
    (hd : (d.errorMessage).isSome = true ∨ (d.note).isSome = true ∨
      d.globalQuote = none) :
    get_stock_data s (env 0) now = none
    ∧ (update_stocks (s :: rest) queryOutcome env sinkOk now).failed
        = (update_stocks_go (query_database queryOutcome) now (fun j => env (j + 1))
            (fun j => sinkOk (j + 1)) rest).failed + 1
    ∧ (update_stocks (s :: rest) queryOutcome env sinkOk now).succeeded
        = (update_stocks_go (query_database queryOutcome) now (fun j => env (j + 1))
            (fun j => sinkOk (j + 1)) rest).succeeded
    ∧ (update_stocks (s :: rest) queryOutcome env sinkOk now).events
        = Event.fetch s :: (update_stocks_go (query_database queryOutcome) now
            (fun j => env (j + 1)) (fun j => sinkOk (j + 1)) rest).events := by
  have hnone : get_stock_data s (env 0) now = none := by
    rw [henv]
    exact get_stock_data_refused s now d hd
  refine ⟨hnone, ?_, ?_, ?_⟩ <;>
    simp only [update_stocks, update_stocks_go, hnone]

/-- C5 witness: a one-symbol run against a `"Note"` response ends with
failed = 1, succeeded = 0, and a trace holding just that fetch. -/
theorem C5_refusal_counts_witness :
    get_stock_data "AAA" (FetchInput.payload noteData) "T" = none
    ∧ (update_stocks ["AAA"] (Except.ok []) (fun _ => FetchInput.payload noteData)
        (fun _ => true) "T").failed = 1
    ∧ (update_stocks ["AAA"] (Except.ok []) (fun _ => FetchInput.payload noteData)
        (fun _ => true) "T").succeeded = 0
    ∧ (update_stocks ["AAA"] (Except.ok []) (fun _ => FetchInput.payload noteData)
        (fun _ => true) "T").events = [Event.fetch "AAA"] :=
  C5_refusal_counts noteData "AAA" "T" [] (Except.ok [])
    (fun _ => FetchInput.payload noteData) (fun _ => true) rfl (Or.inr (Or.inl rfl))

/-- C6, counterexample: matching is keyed on the requested symbol, not the
record's symbol: requesting `"AAA"` against a provider that reports
`"MSFT"` yields a record whose symbol is `"MSFT"`; the existing row
`"msft"` matches that record's symbol up to case, yet the run issues a
create -- no update on that row's identifier -- falsifying the claim as
stated. -/
theorem C6_counterexample :
    ((get_stock_data "AAA" (FetchInput.payload cDataOtherSym) "T").map StockData.symbol
        = some "MSFT")
    ∧ (entryMatches "MSFT" cEntryMsft = true)
    ∧ ((update_stocks ["AAA"] (Except.ok [cEntryMsft])
        (fun _ => FetchInput.payload cDataOtherSym) (fun _ => true) "T").events
      = [Event.fetch "AAA",
         Event.sinkCreate (recordOf "AAA" "T" { cQuote with symbolF := some "MSFT" })]) :=
  ⟨rfl, rfl, rfl⟩

/-- C6 (amended): symbol matching in the database-upsert sink is
case-insensitive but keyed on the REQUESTED symbol (the ticker the fetch
was issued for), not the record's provider-reported symbol: when the
requested symbol has a case-insensitive match among the existing rows, the
run issues an update on a matching row's identifier (and no create); when
no row matches the requested symbol, it issues a create. -/
theorem C6_case_insensitive_upsert (entries : List Entry) (s now : String)
    (inp : FetchInput) (d : StockData) (sinkOk : Nat → Bool)
    (hfetch : get_stock_data s inp now = some d) :
    ((∃ e ∈ entries, entryMatches s e = true) →
      ∃ e ∈ entries, entryMatches s e = true ∧
        (update_stocks [s] (Except.ok entries) (fun _ => inp) sinkOk now).events
          = [Event.fetch s, Event.sinkUpdate e.id d])
    ∧ ((∀ e ∈ entries, entryMatches s e = false) →
      (update_stocks [s] (Except.ok entries) (fun _ => inp) sinkOk now).events
        = [Event.fetch s, Event.sinkCreate d]) := by
  have hev : (update_stocks [s] (Except.ok entries) (fun _ => inp) sinkOk now).events
      = [Event.fetch s, sinkEventFor entries s d] := by
    simp only [update_stocks, update_stocks_go, hfetch, query_database]
    rfl
  constructor
  · intro hex
    have hsome : (find_existing_entry s entries).isSome = true :=
      (find_existing_entry_isSome s entries).mpr hex
    obtain ⟨pid, hpid⟩ := Option.isSome_iff_exists.mp hsome
    obtain ⟨e, he, hm, hid⟩ := find_existing_entry_eq_some s entries pid hpid
    refine ⟨e, he, hm, ?_⟩
    rw [hev]
    simp [sinkEventFor, hpid, hid]
  · intro hall
    have hnone : find_existing_entry s entries = none :=
      (find_existing_entry_eq_none s entries).mpr hall
    rw [hev]
    simp [sinkEventFor, hnone]

/-- C6 witness: an existing row with symbol text `"aapl"` and an incoming
record for `"AAPL"` yield an update on that row's identifier. -/
theorem C6_case_insensitive_upsert_witness :
    ∃ e ∈ [cEntry], entryMatches "AAPL" e = true ∧
      (update_stocks ["AAPL"] (Except.ok [cEntry]) (fun _ => FetchInput.payload cData)
          (fun _ => true) "T").events
        = [Event.fetch "AAPL", Event.sinkUpdate e.id (recordOf "AAPL" "T" cQuote)] :=
  (C6_case_insensitive_upsert [cEntry] "AAPL" "T" (FetchInput.payload cData)
      (recordOf "AAPL" "T" cQuote) (fun _ => true) rfl).1
    ⟨cEntry, by simp, rfl⟩

/-- C7, counterexample: the create-row payload contains the `"Symbol"`
field (distinct from the display-name field `"Name"`), yet the update-row
payload omits it -- so the update payload does not contain all create-row
fields except the display name. -/
theorem C7_counterexample :
    ("Symbol" ∈ (create_properties (recordOf "AAA" "T" cQuote)).map Prod.fst)
    ∧ ("Symbol" ∉ (update_properties (recordOf "AAA" "T" cQuote)).map Prod.fst)
    ∧ ("Symbol" : String) ≠ "Name" := by
  refine ⟨?_, ?_, ?_⟩ <;> decide

/-- C7 (amended): for every record, the update-row payload is exactly the
create-row payload with BOTH the display-name field (`"Name"`) and the
symbol field (`"Symbol"`) removed -- in particular every property present
in both payloads carries the same value from the record, in the same
order. -/
theorem C7_update_payload (d : StockData) :
    update_properties d
      = (create_properties d).filter
          (fun kv => !(kv.fst == "Name") && !(kv.fst == "Symbol")) := rfl

/-- C8, counterexample: when the provider's quote reports the symbol
`"aapl"`, the emitted record's symbol is the verbatim lowercase string, not
an uppercase ticker. -/
theorem C8_counterexample :
    ((get_stock_data "AAPL" (FetchInput.payload cDataLower) "T").map StockData.symbol
      = some "aapl")
    ∧ ("aapl" ≠ upperStr "aapl") :=
  ⟨rfl, by decide⟩

/-- C8 (amended): every emitted record's symbol is the provider-reported
`"01. symbol"` string verbatim when that field is present, and the
upper-cased requested symbol otherwise; uppercase is guaranteed only in the
fallback case. -/
theorem C8_symbol_source (s now : String) (data : ApiData) (d : StockData)
    (h : get_stock_data s (FetchInput.payload data) now = some d) :
    ∃ q, data.globalQuote = some q ∧ d.symbol = (q.symbolF).getD (upperStr s) := by
  rcases data with ⟨em, nt, gq⟩
  by_cases hem : (Option.isSome em) = true
  · rw [get_stock_data_refused s now ⟨em, nt, gq⟩ (Or.inl hem)] at h
    simp at h
  · have hemn : em = none := Option.not_isSome_iff_eq_none.mp hem
    subst hemn
    by_cases hnt : (Option.isSome nt) = true
    · rw [get_stock_data_refused s now ⟨none, nt, gq⟩ (Or.inr (Or.inl hnt))] at h
      simp at h
    · have hntn : nt = none := Option.not_isSome_iff_eq_none.mp hnt
      subst hntn
      cases gq with
      | none =>
        rw [get_stock_data_refused s now ⟨none, none, none⟩ (Or.inr (Or.inr rfl))] at h
        simp at h
      | some q =>
        rw [get_stock_data_quote] at h
        by_cases ho : othersParse q = true
        · rw [if_pos ho] at h
          refine ⟨q, rfl, ?_⟩
          have hd : recordOf s now q = d := by
            injection h
          rw [← hd]
          rfl
        · rw [if_neg ho] at h
          simp at h

/-- C8 witness: with the `"01. symbol"` field absent, the requested symbol
`"aapl"` is upper-cased in the emitted record. -/
theorem C8_symbol_source_witness :
    ∃ q, cDataNoSym.globalQuote = some q
      ∧ (recordOf "aapl" "T" { cQuote with symbolF := none }).symbol
          = (q.symbolF).getD (upperStr "aapl") :=
  C8_symbol_source "aapl" "T" cDataNoSym
    (recordOf "aapl" "T" { cQuote with symbolF := none }) rfl

/-- C9: the fetch interface is total: for every symbol and every provider
interaction -- transport error, malformed JSON, unexpected exception, or
any parsed body -- the handler ladder converts every raised exception, so
`get_stock_data` returns a record or `None` and never propagates. -/
theorem C9_total_interface (s : String) (inp : FetchInput) (now : String) :
    ∃ v, get_stock_data_exc s inp now = Except.ok v
      ∧ get_stock_data s inp now = v := by
  cases h : getStockDataBody s inp now with
  | ok v =>
    exact ⟨v, by simp [get_stock_data_exc, h], by simp [get_stock_data, get_stock_data_exc, h]⟩
  | error e =>
    refine ⟨none, ?_, ?_⟩ <;>
      cases e <;>
        simp [get_stock_data, get_stock_data_exc, handledByExceptClauses, h]

/-- C10: when the initial row query fails with a transport error, the run
still proceeds -- every symbol is fetched -- the existing-entry list is
empty, so no update-row call ever occurs and each successfully fetched
record yields exactly one (create) sink write. -/
theorem C10_query_failure_proceeds (symbols : List String) (env : Nat → FetchInput)
    (sinkOk : Nat → Bool) (now : String) :
    (query_database (Except.error ()) = [])
    ∧ ((update_stocks symbols (Except.error ()) env sinkOk now).events.countP isFetchEvent
        = symbols.length)
    ∧ ((update_stocks symbols (Except.error ()) env sinkOk now).events.countP isUpdateEvent
        = 0)
    ∧ ((update_stocks symbols (Except.error ()) env sinkOk now).events.countP isSinkEvent
        = (List.range symbols.length).countP (fetchSucceeds now env symbols)) :=
  ⟨rfl, update_stocks_go_fetch_count _ _ _ _ _, update_stocks_go_no_update_of_nil _ _ _ _,
    update_stocks_go_sink_count _ _ _ _ _⟩

end StockUpdater
